import Mathlib

/-!
Shallow embedding of the indigo-services repository (plane-agent.js,
plane-ticket-creator.js, webhook-listener.js, railway-agent.js) and
verification of the specification claims against it.

Modelling conventions:
- JS strings are Lean `String`; `toLowerCase`, `includes`, `trim`,
  `split`, `substring` are embedded as executable functions below.
- A JS async function that can reject is embedded with result type
  `JsResult J`: either `thrown msg` (an exception propagates) or
  `ret v` where `v : JsValue J` is an ordinary returned value
  (`undef`, `null`, or a JSON object of type `J`).
- The network is an explicit environment: a function from the request
  URL and request payload to a `FetchOutcome` (either the fetch promise
  rejecting, or an HTTP response with status, content type, body text
  and parsed JSON value). Headers and the HTTP method never influence
  control flow in the source, so they are absorbed into the environment.
-/

namespace IndigoServices

/-! ## JS string primitives -/

/-- ASCII lower-casing of one character, as `String.prototype.toLowerCase`
acts on the ASCII inputs used by the source. -/
def jsLowerChar (c : Char) : Char :=
  if 'A' ≤ c ∧ c ≤ 'Z' then Char.ofNat (c.toNat + 32) else c

/-- JS `s.toLowerCase()` on ASCII text. -/
def jsLower (s : String) : String :=
  String.mk (s.data.map jsLowerChar)

/-- Does the first list occur at the head of the second list. -/
def leadsWith : List Char → List Char → Bool
  | [], _ => true
  | _ :: _, [] => false
  | a :: as, b :: bs => a == b && leadsWith as bs

/-- Does `needle` occur as a contiguous run inside `hay`. -/
def includesCh (needle : List Char) : List Char → Bool
  | [] => needle.isEmpty
  | c :: rest => leadsWith needle (c :: rest) || includesCh needle rest

/-- JS `hay.includes(needle)`. -/
def jsIncludes (hay needle : String) : Bool :=
  includesCh needle.data hay.data

/-- JS `s.split(".")[0]`: the characters before the first period. -/
def takeUntilDot (s : String) : String :=
  String.mk (s.data.takeWhile (fun c => c ≠ '.'))

def isWsChar (c : Char) : Bool :=
  c == ' ' || c == '\t' || c == '\n' || c == '\r'

/-- JS `s.trim()`. -/
def jsTrim (s : String) : String :=
  String.mk (((s.data.dropWhile isWsChar).reverse.dropWhile isWsChar).reverse)

/-- JS `s.substring(0, n)` on ASCII text. -/
def jsTake (s : String) (n : Nat) : String :=
  String.mk (s.data.take n)

/-- JS `s.length` on ASCII text. -/
def jsLen (s : String) : Nat := s.data.length

/-- JS `s.split(" ").length`: one more than the number of space characters. -/
def jsWordCount (s : String) : Nat :=
  (s.data.filter (fun c => c == ' ')).length + 1

/-- JS `arr.join(", ")`. -/
def jsJoinComma : List String → String
  | [] => ""
  | [x] => x
  | x :: rest => x ++ ", " ++ jsJoinComma rest

/-! ## JS value and result model -/

/-- An ordinary JS value returned by the functions we model: `undefined`,
`null`, or a parsed JSON document of type `J`. -/
inductive JsValue (J : Type) where
  | undef
  | null
  | json (j : J)
  deriving DecidableEq, Repr

/-- Outcome of calling a JS async function: an exception propagates with a
message, or a value is returned. -/
inductive JsResult (J : Type) where
  | thrown (msg : String)
  | ret (v : JsValue J)
  deriving DecidableEq, Repr

/-! ## The fetch environment -/

/-- The payload sent with a request, kept structured (serialization does not
influence control flow). `issueBody` is the issue-creation payload, built by
`createAITicket`; `commentBody` is the comment payload of `addComment`. -/
inductive ReqBody where
  | noBody
  | issueBody (name description priority state : String) (labels : List String)
  | commentBody (comment : String)
  deriving DecidableEq, Repr

/-- Result of one `fetch(url, options)`: the promise rejects with a message,
or resolves to a response carrying status, the content-type header (possibly
absent), the body text, and the JSON value `json()` would produce. -/
inductive FetchOutcome (J : Type) where
  | netError (msg : String)
  | resp (status : Nat) (contentType : Option String) (body : String) (json : J)
  deriving DecidableEq, Repr

/-- `response.ok`: status in the range 200-299. -/
def respOk (status : Nat) : Bool :=
  200 ≤ status && status ≤ 299

/-- `contentType && contentType.includes("application/json")`. -/
def ctIsJson : Option String → Bool
  | none => false
  | some ct => jsIncludes ct "application/json"

/-! ## PlaneAgent.request (plane-agent.js lines 18-58)

The loop walks the candidate path list in order; the source detects the
last candidate by comparing with the final element of the fixed list,
which (the list having pairwise distinct entries) coincides with the
structural "no further candidates" test used here. -/

/-- Candidate API path prefixes of `PlaneAgent.request`. -/
def agentApiPaths : List String := ["/api/v1", "/api", "/api/public", ""]

/-- One iteration step classified; returns the overall result and the list of
path prefixes attempted (for observability of which candidates were tried). -/
def agentRequestGo (env : String → ReqBody → FetchOutcome J)
    (apiUrl endpoint : String) (body : ReqBody) :
    List String → JsResult J × List String
  | [] => (JsResult.ret JsValue.undef, [])
  | p :: rest =>
    let url := apiUrl ++ p ++ endpoint
    let keepGoing :=
      let r := agentRequestGo env apiUrl endpoint body rest
      (r.1, p :: r.2)
    match env url body with
    | FetchOutcome.netError m =>
      -- fetch rejected; caught, rethrown only on the last candidate
      if rest.isEmpty then (JsResult.thrown m, [p]) else keepGoing
    | FetchOutcome.resp status ct bodyText j =>
      if status == 404 then
        -- try next API path (even when this was the last candidate)
        keepGoing
      else if !(respOk status) then
        -- `throw new Error(...)` inside the try: caught, rethrown on last
        if rest.isEmpty then
          (JsResult.thrown ("API error " ++ toString status ++ ": " ++ bodyText), [p])
        else keepGoing
      else if ctIsJson ct then
        (JsResult.ret (JsValue.json j), [p])
      else
        -- 2xx but not JSON: throw, caught, rethrown on last
        if rest.isEmpty then
          (JsResult.thrown "Expected JSON response but got HTML/text", [p])
        else keepGoing

/-- `PlaneAgent.request(endpoint, options)`: probe the fixed candidate list. -/
def agentRequest (env : String → ReqBody → FetchOutcome J)
    (apiUrl endpoint : String) (body : ReqBody) : JsResult J × List String :=
  agentRequestGo env apiUrl endpoint body agentApiPaths

/-! ## PlaneTicketCreator.apiRequest (plane-ticket-creator.js lines 21-52) -/

/-- Candidate API path prefixes of `PlaneTicketCreator.apiRequest`. -/
def creatorApiPaths : List String := ["/api/v1", "/api", "/api/public"]

/-- The creator loop differs from the agent loop in two ways: a failure on
the last candidate returns `null` (fallback to local storage) instead of
rethrowing, and a 2xx non-JSON response simply falls out of the try block,
so the loop continues (returning `undefined` if it was the last candidate). -/
def creatorApiRequestGo (env : String → ReqBody → FetchOutcome J)
    (apiUrl endpoint : String) (body : ReqBody) :
    List String → JsResult J × List String
  | [] => (JsResult.ret JsValue.undef, [])
  | p :: rest =>
    let url := apiUrl ++ p ++ endpoint
    let keepGoing :=
      let r := creatorApiRequestGo env apiUrl endpoint body rest
      (r.1, p :: r.2)
    match env url body with
    | FetchOutcome.netError _m =>
      if rest.isEmpty then (JsResult.ret JsValue.null, [p]) else keepGoing
    | FetchOutcome.resp status ct _bodyText j =>
      if status == 404 then
        keepGoing
      else if !(respOk status) then
        if rest.isEmpty then (JsResult.ret JsValue.null, [p]) else keepGoing
      else if ctIsJson ct then
        (JsResult.ret (JsValue.json j), [p])
      else
        -- no else branch in the source: control falls through, the loop
        -- continues (and simply ends after the last candidate)
        keepGoing

/-- `PlaneTicketCreator.apiRequest(endpoint, options)`. -/
def creatorApiRequest (env : String → ReqBody → FetchOutcome J)
    (apiUrl endpoint : String) (body : ReqBody) : JsResult J × List String :=
  creatorApiRequestGo env apiUrl endpoint body creatorApiPaths

/-! ## PlaneTicketCreator.analyzeTicket (plane-ticket-creator.js lines 55-96) -/

structure TicketAnalysis where
  title : String
  description : String
  category : String
  priority : String
  complexity : String
  labels : List String
  workspace : String
  deriving DecidableEq, Repr

/-- Bug keyword test of `analyzeTicket`. -/
def bugWordsT (lower : String) : Bool :=
  jsIncludes lower "bug" || jsIncludes lower "error" || jsIncludes lower "fix"

def featureWordsT (lower : String) : Bool :=
  jsIncludes lower "feature" || jsIncludes lower "add" || jsIncludes lower "implement"

def improveWordsT (lower : String) : Bool :=
  jsIncludes lower "improve" || jsIncludes lower "optimize"

/-- Urgency test of `analyzeTicket`: only "urgent" and "critical". -/
def urgentWordsT (lower : String) : Bool :=
  jsIncludes lower "urgent" || jsIncludes lower "critical"

def creatorTechTags : List String :=
  ["api", "database", "frontend", "backend", "ui", "security", "performance"]

def analyzeTicket (description : String) : TicketAnalysis :=
  let lowerDesc := jsLower description
  let category :=
    if bugWordsT lowerDesc then "Bug"
    else if featureWordsT lowerDesc then "Feature"
    else if improveWordsT lowerDesc then "Enhancement"
    else "Task"
  let basePriority :=
    if bugWordsT lowerDesc then "High"
    else if featureWordsT lowerDesc then "Medium"
    else if improveWordsT lowerDesc then "Low"
    else "Medium"
  -- priority adjustment overwrites the category-derived priority
  let priority := if urgentWordsT lowerDesc then "Urgent" else basePriority
  let labels := creatorTechTags.filter (fun tag => jsIncludes lowerDesc tag)
  let wordCount := jsWordCount description
  let complexity :=
    if wordCount > 50 then "High" else if wordCount > 20 then "Medium" else "Low"
  { title := jsTake (jsTrim (takeUntilDot description)) 80
    description := description
    category := category
    priority := priority
    complexity := complexity
    labels := labels
    workspace := "indigo" }

/-! ## PlaneAgent.analyzePrompt (plane-agent.js lines 143-201) -/

structure PromptAnalysis where
  title : String
  description : String
  category : String
  priority : String
  state : String
  labels : List String
  complexity : String
  deriving DecidableEq, Repr

/-- Bug keyword test of `analyzePrompt`: "bug", "error", "issue". -/
def bugWordsA (lower : String) : Bool :=
  jsIncludes lower "bug" || jsIncludes lower "error" || jsIncludes lower "issue"

def featureWordsA (lower : String) : Bool :=
  jsIncludes lower "feature" || jsIncludes lower "add" || jsIncludes lower "implement"

def improveWordsA (lower : String) : Bool :=
  jsIncludes lower "improve" || jsIncludes lower "optimize"

/-- Urgency test of `analyzePrompt`: "urgent", "asap", "critical". -/
def urgencyWordsA (lower : String) : Bool :=
  jsIncludes lower "urgent" || jsIncludes lower "asap" || jsIncludes lower "critical"

/-- Explicit low-priority test of `analyzePrompt`. -/
def lowWordsA (lower : String) : Bool :=
  jsIncludes lower "low priority" || jsIncludes lower "when possible"

def agentTechKeywords : List String :=
  ["api", "database", "frontend", "backend", "ui", "ux", "security", "performance"]

def analyzePrompt (prompt : String) : PromptAnalysis :=
  let lowerPrompt := jsLower prompt
  let category :=
    if bugWordsA lowerPrompt then "BUG"
    else if featureWordsA lowerPrompt then "FEATURE"
    else if improveWordsA lowerPrompt then "IMPROVEMENT"
    else "TASK"
  let basePriority :=
    if bugWordsA lowerPrompt then "high"
    else if featureWordsA lowerPrompt then "medium"
    else if improveWordsA lowerPrompt then "low"
    else "medium"
  -- extract urgency: an if / else-if chain, so the urgency branch shadows
  -- the low-priority branch whenever both match
  let priority :=
    if urgencyWordsA lowerPrompt then "urgent"
    else if lowWordsA lowerPrompt then "low"
    else basePriority
  let firstSentence := jsTrim (takeUntilDot prompt)
  let title :=
    if jsLen firstSentence > 80 then jsTake firstSentence 77 ++ "..." else firstSentence
  let labels := agentTechKeywords.filter (fun keyword => jsIncludes lowerPrompt keyword)
  let wordCount := jsWordCount prompt
  let complexity :=
    if wordCount > 100 || jsIncludes lowerPrompt "integration"
        || jsIncludes lowerPrompt "architecture" then "HIGH"
    else if wordCount > 50 || labels.length > 2 then "MEDIUM"
    else "LOW"
  { title := title
    description := prompt
    category := category
    priority := priority
    state := "Todo"
    labels := labels
    complexity := complexity }

/-! ## PlaneAgent.createAITicket (plane-agent.js lines 102-140) -/

/-- The JSON document returned by issue creation, as far as the source
inspects it: only the `id` field is read (`issue && issue.id`). A JS field
that is absent or holds a falsy value is modelled by `none` / `some ""`. -/
structure Issue where
  id : Option String := none
  deriving DecidableEq, Repr

/-- JS truthiness of `issue.id` for a string-valued field. -/
def jsTruthyId : Option String → Bool
  | none => false
  | some s => !(s == "")

def issuesEndpoint (workspaceSlug projectId : String) : String :=
  "/workspaces/" ++ workspaceSlug ++ "/projects/" ++ projectId ++ "/issues/"

def commentsEndpoint (workspaceSlug projectId issueId : String) : String :=
  issuesEndpoint workspaceSlug projectId ++ issueId ++ "/comments/"

/-- The AI-analysis comment text built in `createAITicket`. -/
def aiCommentText (analysis : PromptAnalysis) : String :=
  "🤖 **AI Analysis:**\n\n**Category:** " ++ analysis.category
    ++ "\n**Estimated Complexity:** " ++ analysis.complexity
    ++ "\n**Suggested Priority:** " ++ analysis.priority
    ++ "\n**Auto-generated Tags:** " ++ jsJoinComma analysis.labels
    ++ "\n\n*This ticket was created automatically by Plane Agent.*"

/-- The issue-creation payload `createAITicket` builds from the analysis. -/
def issueDataOf (prompt : String) : ReqBody :=
  let analysis := analyzePrompt prompt
  ReqBody.issueBody analysis.title analysis.description
    analysis.priority analysis.state analysis.labels

/-- `PlaneAgent.createAITicket`: create the issue via `request`, then (when
the returned issue is truthy with a truthy id) post the analysis comment.
Both awaits sit inside one try whose catch rethrows, so an error from either
call propagates out of `createAITicket`. -/
def createAITicket (env : String → ReqBody → FetchOutcome Issue)
    (apiUrl workspaceSlug projectId prompt : String) : JsResult Issue :=
  let analysis := analyzePrompt prompt
  match (agentRequest env apiUrl (issuesEndpoint workspaceSlug projectId) (issueDataOf prompt)).1 with
  | JsResult.thrown m => JsResult.thrown m
  | JsResult.ret v =>
    match v with
    | JsValue.json issue =>
      if jsTruthyId issue.id then
        let issueId := issue.id.getD ""
        match (agentRequest env apiUrl
            (commentsEndpoint workspaceSlug projectId issueId)
            (ReqBody.commentBody (aiCommentText analysis))).1 with
        | JsResult.thrown m => JsResult.thrown m
        | JsResult.ret _ => JsResult.ret (JsValue.json issue)
      else JsResult.ret (JsValue.json issue)
    | other => JsResult.ret other

/-! ## PlaneAgent.createTicketsFromList (plane-agent.js lines 204-227) -/

/-- One entry of the bulk-creation result: `{success, ticket | error, prompt}`. -/
structure BatchEntry where
  success : Bool
  ticket : Option (JsValue Issue) := none
  error : Option String := none
  prompt : String
  deriving DecidableEq, Repr

/-- The bulk loop. The second component records, per item, whether the
1000 ms rate-limit wait executed after that item: the wait sits inside the
try after the successful push, so it runs after every success (including the
last) and is skipped when `createAITicket` threw (the catch path). -/
def createTicketsFromList (env : String → ReqBody → FetchOutcome Issue)
    (apiUrl workspaceSlug projectId : String) :
    List String → List BatchEntry × List Bool
  | [] => ([], [])
  | ticketPrompt :: rest =>
    let nextR := createTicketsFromList env apiUrl workspaceSlug projectId rest
    match createAITicket env apiUrl workspaceSlug projectId ticketPrompt with
    | JsResult.ret ticket =>
      ({ success := true, ticket := some ticket, prompt := ticketPrompt } :: nextR.1,
        true :: nextR.2)
    | JsResult.thrown m =>
      ({ success := false, error := some m, prompt := ticketPrompt } :: nextR.1,
        false :: nextR.2)

/-! ## Webhook listener (webhook-listener.js) -/

/-- The fields of the webhook payload `data` that the handlers read. A JS
object field that is absent is `none`. -/
structure IssueData where
  name : Option String := none
  description : Option String := none
  deriving DecidableEq, Repr

/-- An inbound webhook event `{event_type, data}`; `data` is `none` when the
request body has no `data` field (the JS value `undefined`). -/
structure WebhookEvent where
  event_type : String
  data : Option IssueData
  deriving DecidableEq, Repr

/-- How a possibly-undefined value prints inside a JS template literal. -/
def jsTemplateStr : Option String → String
  | none => "undefined"
  | some s => s

/-- Category table of `categorizeIssue`, in `Object.entries` order. -/
def webhookCategories : List (String × List String) :=
  [("bug", ["bug", "error", "issue", "problem", "broken"]),
   ("feature", ["feature", "add", "implement", "new"]),
   ("improvement", ["improve", "optimize", "enhance", "better"]),
   ("task", ["task", "todo", "setup", "configure"])]

def jsUpperChar (c : Char) : Char :=
  if 'a' ≤ c ∧ c ≤ 'z' then Char.ofNat (c.toNat - 32) else c

def jsUpper (s : String) : String :=
  String.mk (s.data.map jsUpperChar)

def categorizeIssue (description : String) : String :=
  let lowerDesc := jsLower description
  match webhookCategories.find?
      (fun cw => cw.2.any (fun keyword => jsIncludes lowerDesc keyword)) with
  | some cw => jsUpper cw.1
  | none => "GENERAL"

def suggestPriority (title description : String) : String :=
  let text := jsLower (title ++ " " ++ description)
  if jsIncludes text "urgent" || jsIncludes text "critical"
      || jsIncludes text "crash" then "HIGH"
  else if jsIncludes text "important" || jsIncludes text "should" then "MEDIUM"
  else "LOW"

def complexityKeywords : List String :=
  ["integration", "database", "api", "security", "performance"]

def estimateComplexity (description : String) : String :=
  let wordCount := jsWordCount description
  let hasComplexKeywords :=
    complexityKeywords.any (fun keyword => jsIncludes (jsLower description) keyword)
  if hasComplexKeywords || wordCount > 100 then "HIGH"
  else if wordCount > 30 then "MEDIUM"
  else "LOW"

/-- `addAIAnalysisComment` only builds the analysis text (the API call is
commented out in the source); it is pure and cannot throw. -/
def addAIAnalysisComment (issue : IssueData) : String :=
  "🤖 AI Analysis:\n  \n**Issue Type**: "
    ++ categorizeIssue (issue.description.getD "")
    ++ "\n**Priority Suggestion**: "
    ++ suggestPriority (jsTemplateStr issue.name) (issue.description.getD "")
    ++ "\n**Estimated Complexity**: "
    ++ estimateComplexity (issue.description.getD "")
    ++ "\n\n*This analysis was generated automatically. Please review and adjust as needed.*"

/-- `handleIssueCreated(data)`: dereferences `data.name` (throws a TypeError
when `data` is `undefined`), then builds the analysis comment. -/
def handleIssueCreated (d : Option IssueData) : Except String Unit :=
  match d with
  | none => Except.error "Cannot read properties of undefined"
  | some issue =>
    let _analysis := addAIAnalysisComment issue
    Except.ok ()

/-- `handleIssueUpdated(data)`: dereferences `data.name`. -/
def handleIssueUpdated (d : Option IssueData) : Except String Unit :=
  match d with
  | none => Except.error "Cannot read properties of undefined"
  | some _ => Except.ok ()

/-- `handleCommentCreated(data)`: never touches `data`, never throws. -/
def handleCommentCreated (_d : Option IssueData) : Except String Unit :=
  Except.ok ()

/-- `handleProjectCreated(data)`: dereferences `data.name`. -/
def handleProjectCreated (d : Option IssueData) : Except String Unit :=
  match d with
  | none => Except.error "Cannot read properties of undefined"
  | some _ => Except.ok ()

/-- The event tags with a dedicated case in the dispatch switch. -/
def recognizedEventTags : List String :=
  ["issue.created", "issue.updated", "issue_comment.created", "project.created"]

/-- The switch of the `/plane-webhook` route: pick the handler by tag; the
default case only logs, so it never throws. -/
def selectHandler (ev : WebhookEvent) : Except String Unit :=
  if ev.event_type == "issue.created" then handleIssueCreated ev.data
  else if ev.event_type == "issue.updated" then handleIssueUpdated ev.data
  else if ev.event_type == "issue_comment.created" then handleCommentCreated ev.data
  else if ev.event_type == "project.created" then handleProjectCreated ev.data
  else Except.ok ()

inductive WebhookBody where
  | success (processed : String)
  | error (message : String)
  deriving DecidableEq, Repr

structure HttpReply where
  status : Nat
  body : WebhookBody
  deriving DecidableEq, Repr

/-- The `/plane-webhook` route: run the selected handler inside try/catch;
200 `{status:"success", processed}` when it did not throw, 500
`{status:"error", message}` when it threw. -/
def planeWebhook (ev : WebhookEvent) : HttpReply :=
  match selectHandler ev with
  | Except.ok _ => { status := 200, body := WebhookBody.success ev.event_type }
  | Except.error m => { status := 500, body := WebhookBody.error m }

/-! ## RailwayAgent.executeTicket (railway-agent.js lines 219-242) -/

structure RwDeployment where
  id : String
  status : String
  deriving DecidableEq, Repr

/-- A deployment ticket as built by `createDeploymentTicket`. -/
structure RwTicket where
  id : String
  project : String
  service : String
  action : String
  status : String
  serviceId : String
  projectId : String
  recentDeployments : List RwDeployment := []
  createdAt : String := ""
  deriving DecidableEq, Repr

/-- The two remote GraphQL operations `executeTicket` can reach, as an
environment. `Except.error` covers every way `query` throws: a non-2xx
transport status, or a 2xx response carrying a GraphQL `errors` array. -/
structure RailwayEnv where
  serviceRedeploy : String → Except String RwDeployment
  serviceDeployments : String → Except String (List RwDeployment)

/-- The object returned by `executeTicket`: all fields of the input ticket
(spread), `status` overwritten, plus at most one extra field per branch. -/
structure ExecutedTicket extends RwTicket where
  deploymentId : Option String := none
  latestDeployment : Option RwDeployment := none
  error : Option String := none
  deriving DecidableEq, Repr

/-- `RailwayAgent.executeTicket`: the whole switch sits in a try whose catch
returns `{...ticket, status:"failed", error}`, so the function never lets an
error propagate. The default case throws `Unknown action`, which the same
catch turns into a failed ticket. -/
def executeTicket (env : RailwayEnv) (ticket : RwTicket) : ExecutedTicket :=
  if ticket.action == "deploy" || ticket.action == "redeploy" then
    match env.serviceRedeploy ticket.serviceId with
    | Except.ok deployment =>
      { toRwTicket := { ticket with status := "completed" }
        deploymentId := some deployment.id }
    | Except.error m =>
      { toRwTicket := { ticket with status := "failed" }, error := some m }
  else if ticket.action == "status" then
    match env.serviceDeployments ticket.serviceId with
    | Except.ok deployments =>
      { toRwTicket := { ticket with status := "completed" }
        latestDeployment := deployments.head? }
    | Except.error m =>
      { toRwTicket := { ticket with status := "failed" }, error := some m }
  else
    { toRwTicket := { ticket with status := "failed" }
      error := some ("Unknown action: " ++ ticket.action) }

/-! # Claim theorems -/

/-! ## C1: behaviour of a non-2xx, non-404 candidate response -/

/-- Fetch environment for C1: the first candidate path answers 403, the
second answers 200 with JSON, all other paths 404. -/
def reqC1Env : String → ReqBody → FetchOutcome String := fun url _body =>
  if url == "https://plane.example/api/v1/workspaces/" then
    FetchOutcome.resp 403 (some "text/plain") "Forbidden" ""
  else if url == "https://plane.example/api/workspaces/" then
    FetchOutcome.resp 200 (some "application/json") "" "workspaces-json"
  else
    FetchOutcome.resp 404 none "" ""

/-- C1 counterexample: with candidates where `/api/v1` answers 403 and
`/api` answers 200 with JSON, `PlaneAgent.request` does NOT fail with the
403 error: it goes on to the next candidate (the trace shows `/api` was
attempted) and returns that candidate's JSON — contradicting the claim that
a non-2xx, non-404 response is terminal and no later candidate is tried. -/
theorem claim_C1_counterexample :
    reqC1Env "https://plane.example/api/v1/workspaces/" ReqBody.noBody
        = FetchOutcome.resp 403 (some "text/plain") "Forbidden" "" ∧
    agentRequest reqC1Env "https://plane.example" "/workspaces/" ReqBody.noBody
        = (JsResult.ret (JsValue.json "workspaces-json"), ["/api/v1", "/api"]) := by
  decide

/-- C1 (amended): a non-2xx, non-404 response is thrown as an error inside
the try and caught: when further candidates remain, the loop moves on to
them; only when it occurs on the last candidate does `PlaneAgent.request`
fail with `API error status: body`, while `PlaneTicketCreator.apiRequest`
instead returns `null` (local-storage fallback). -/
theorem claim_C1 :
    (∀ (J : Type) (env : String → ReqBody → FetchOutcome J)
        (apiUrl endpoint : String) (body : ReqBody) (p : String)
        (rest : List String) (s : Nat) (ct : Option String) (b : String) (j : J),
      rest.isEmpty = false →
      env (apiUrl ++ p ++ endpoint) body = FetchOutcome.resp s ct b j →
      (s == 404) = false → respOk s = false →
      agentRequestGo env apiUrl endpoint body (p :: rest)
        = ((agentRequestGo env apiUrl endpoint body rest).1,
           p :: (agentRequestGo env apiUrl endpoint body rest).2)) ∧
    (∀ (J : Type) (env : String → ReqBody → FetchOutcome J)
        (apiUrl endpoint : String) (body : ReqBody) (p : String)
        (s : Nat) (ct : Option String) (b : String) (j : J),
      env (apiUrl ++ p ++ endpoint) body = FetchOutcome.resp s ct b j →
      (s == 404) = false → respOk s = false →
      agentRequestGo env apiUrl endpoint body [p]
        = (JsResult.thrown ("API error " ++ toString s ++ ": " ++ b), [p])) ∧
    (∀ (J : Type) (env : String → ReqBody → FetchOutcome J)
        (apiUrl endpoint : String) (body : ReqBody) (p : String)
        (s : Nat) (ct : Option String) (b : String) (j : J),
      env (apiUrl ++ p ++ endpoint) body = FetchOutcome.resp s ct b j →
      (s == 404) = false → respOk s = false →
      creatorApiRequestGo env apiUrl endpoint body [p]
        = (JsResult.ret JsValue.null, [p])) := by
  refine ⟨?_, ?_, ?_⟩
  · intro J env apiUrl endpoint body p rest s ct b j hrest hE h404 hok
    simp [agentRequestGo, hE, h404, hok, hrest]
  · intro J env apiUrl endpoint body p s ct b j hE h404 hok
    simp [agentRequestGo, hE, h404, hok]
  · intro J env apiUrl endpoint body p s ct b j hE h404 hok
    simp [creatorApiRequestGo, hE, h404, hok]

/-- C1 witness: the amended behaviour at the concrete 403 environment. -/
theorem claim_C1_witness :
    agentRequestGo reqC1Env "https://plane.example" "/workspaces/" ReqBody.noBody
        ("/api/v1" :: ["/api", "/api/public", ""])
      = ((agentRequestGo reqC1Env "https://plane.example" "/workspaces/" ReqBody.noBody
            ["/api", "/api/public", ""]).1,
         "/api/v1" :: (agentRequestGo reqC1Env "https://plane.example" "/workspaces/"
            ReqBody.noBody ["/api", "/api/public", ""]).2) ∧
    agentRequestGo reqC1Env "https://plane.example" "/workspaces/" ReqBody.noBody ["/api/v1"]
      = (JsResult.thrown "API error 403: Forbidden", ["/api/v1"]) ∧
    creatorApiRequestGo reqC1Env "https://plane.example" "/workspaces/" ReqBody.noBody ["/api/v1"]
      = (JsResult.ret JsValue.null, ["/api/v1"]) :=
  ⟨claim_C1.1 String reqC1Env "https://plane.example" "/workspaces/" ReqBody.noBody
      "/api/v1" ["/api", "/api/public", ""] 403 (some "text/plain") "Forbidden" ""
      (by decide) (by decide) (by decide) (by decide),
   claim_C1.2.1 String reqC1Env "https://plane.example" "/workspaces/" ReqBody.noBody
      "/api/v1" 403 (some "text/plain") "Forbidden" ""
      (by decide) (by decide) (by decide),
   claim_C1.2.2 String reqC1Env "https://plane.example" "/workspaces/" ReqBody.noBody
      "/api/v1" 403 (some "text/plain") "Forbidden" ""
      (by decide) (by decide) (by decide)⟩

/-! ## C2: urgency term together with an explicit low-priority phrase -/

/-- C2 counterexample: "this is urgent but low priority" contains both an
urgency term and a low-priority phrase, yet `analyzePrompt` assigns priority
"urgent", not "low" — the low-priority branch is an `else if` of the urgency
check, so the earlier (urgency) check wins, contradicting the claim that the
later low-priority check overwrites it. -/
theorem claim_C2_counterexample :
    jsIncludes (jsLower "this is urgent but low priority") "urgent" = true ∧
    jsIncludes (jsLower "this is urgent but low priority") "low priority" = true ∧
    (analyzePrompt "this is urgent but low priority").priority = "urgent" := by
  decide

/-- C2 (amended): when the text matches an urgency term, `analyzePrompt`
assigns priority "urgent" regardless of any low-priority phrase: the
low-priority branch sits in an `else if` and is only reached when no urgency
term matched. (`analyzeTicket` has no low-priority branch at all.) -/
theorem claim_C2 (prompt : String)
    (h : urgencyWordsA (jsLower prompt) = true) :
    (analyzePrompt prompt).priority = "urgent" := by
  simp [analyzePrompt, h]

/-- C2 witness: the amended rule at the both-phrases input. -/
theorem claim_C2_witness :
    (analyzePrompt "this is urgent but low priority").priority = "urgent" :=
  claim_C2 "this is urgent but low priority" (by decide)

/-! ## C5: what happens when every candidate is exhausted -/

/-- Does this fetch outcome carry HTTP status 404. -/
def is404 : FetchOutcome J → Bool
  | FetchOutcome.resp s _ _ _ => s == 404
  | FetchOutcome.netError _ => false

/-- If every path in the list answers 404, the agent loop walks the whole
list and returns `undefined`. -/
theorem agentRequestGo_all404 (env : String → ReqBody → FetchOutcome J)
    (apiUrl endpoint : String) (body : ReqBody) :
    ∀ paths : List String,
      (∀ p ∈ paths, is404 (env (apiUrl ++ p ++ endpoint) body) = true) →
      agentRequestGo env apiUrl endpoint body paths
        = (JsResult.ret JsValue.undef, paths) := by
  intro paths
  induction paths with
  | nil => intro _; simp [agentRequestGo]
  | cons p rest ih =>
    intro h
    have hp := h p (by simp)
    have hr : ∀ q ∈ rest, is404 (env (apiUrl ++ q ++ endpoint) body) = true :=
      fun q hq => h q (by simp [hq])
    cases hE : env (apiUrl ++ p ++ endpoint) body with
    | netError m => rw [hE] at hp; simp [is404] at hp
    | resp s ct b j =>
      rw [hE] at hp
      simp only [is404] at hp
      simp [agentRequestGo, hE, hp, ih hr]

/-- If every path in the list answers 404, the creator loop walks the whole
list and returns `undefined`. -/
theorem creatorApiRequestGo_all404 (env : String → ReqBody → FetchOutcome J)
    (apiUrl endpoint : String) (body : ReqBody) :
    ∀ paths : List String,
      (∀ p ∈ paths, is404 (env (apiUrl ++ p ++ endpoint) body) = true) →
      creatorApiRequestGo env apiUrl endpoint body paths
        = (JsResult.ret JsValue.undef, paths) := by
  intro paths
  induction paths with
  | nil => intro _; simp [creatorApiRequestGo]
  | cons p rest ih =>
    intro h
    have hp := h p (by simp)
    have hr : ∀ q ∈ rest, is404 (env (apiUrl ++ q ++ endpoint) body) = true :=
      fun q hq => h q (by simp [hq])
    cases hE : env (apiUrl ++ p ++ endpoint) body with
    | netError m => rw [hE] at hp; simp [is404] at hp
    | resp s ct b j =>
      rw [hE] at hp
      simp only [is404] at hp
      simp [creatorApiRequestGo, hE, hp, ih hr]

/-- Environment where every URL answers 404 (no candidate exists). -/
def env404 : String → ReqBody → FetchOutcome String := fun _ _ =>
  FetchOutcome.resp 404 none "" ""

/-- Environment where every URL answers 500. -/
def env500 : String → ReqBody → FetchOutcome String := fun _ _ =>
  FetchOutcome.resp 500 (some "text/plain") "oops" ""

/-- C5 counterexample: when every candidate answers 404, both clients fall
off the probe loop and RETURN an ordinary value (`undefined`) to the caller
— there is no distinct `Unavailable` signal. The creator even returns `null`
as an ordinary value after a hard error on its last candidate. This
contradicts the claim that exhaustion yields an outcome distinguishable
from data. -/
theorem claim_C5_counterexample :
    agentRequest env404 "https://plane.example" "/workspaces/" ReqBody.noBody
        = (JsResult.ret JsValue.undef, agentApiPaths) ∧
    creatorApiRequest env404 "https://plane.example" "/workspaces/" ReqBody.noBody
        = (JsResult.ret JsValue.undef, creatorApiPaths) ∧
    creatorApiRequest env500 "https://plane.example" "/workspaces/" ReqBody.noBody
        = (JsResult.ret JsValue.null, creatorApiPaths) := by
  decide

/-- C5 (amended): when every candidate prefix answers 404, both
`PlaneAgent.request` and `PlaneTicketCreator.apiRequest` complete normally
and return the JS value `undefined` — an ordinary return value handed to the
caller as data, not a thrown error or other distinct signal. -/
theorem claim_C5 (J : Type) (env : String → ReqBody → FetchOutcome J)
    (apiUrl endpoint : String) (body : ReqBody) :
    ((∀ p ∈ agentApiPaths, is404 (env (apiUrl ++ p ++ endpoint) body) = true) →
      agentRequest env apiUrl endpoint body
        = (JsResult.ret JsValue.undef, agentApiPaths)) ∧
    ((∀ p ∈ creatorApiPaths, is404 (env (apiUrl ++ p ++ endpoint) body) = true) →
      creatorApiRequest env apiUrl endpoint body
        = (JsResult.ret JsValue.undef, creatorApiPaths)) :=
  ⟨fun h => agentRequestGo_all404 env apiUrl endpoint body agentApiPaths h,
   fun h => creatorApiRequestGo_all404 env apiUrl endpoint body creatorApiPaths h⟩

/-- C5 witness: the amended statement at the all-404 environment. -/
theorem claim_C5_witness :
    agentRequest env404 "https://h" "/e" ReqBody.noBody
        = (JsResult.ret JsValue.undef, agentApiPaths) ∧
    creatorApiRequest env404 "https://h" "/e" ReqBody.noBody
        = (JsResult.ret JsValue.undef, creatorApiPaths) :=
  ⟨(claim_C5 String env404 "https://h" "/e" ReqBody.noBody).1 (by decide),
   (claim_C5 String env404 "https://h" "/e" ReqBody.noBody).2 (by decide)⟩

/-! ## C7: the worked classification scenario -/

/-- C7: on the spec's scenario input, both cited classifiers agree with the
claim. `analyzeTicket` yields category "Bug", priority "Urgent", labels
exactly backend and security, and the title
"Fix urgent authentication bug in login flow"; `analyzePrompt` yields the
same classification in its own spelling of the enum values ("BUG",
"urgent"), the same labels, and the same title. -/
theorem claim_C7 :
    (analyzeTicket "Fix urgent authentication bug in login flow. Needs backend and security review.").category = "Bug" ∧
    (analyzeTicket "Fix urgent authentication bug in login flow. Needs backend and security review.").priority = "Urgent" ∧
    (analyzeTicket "Fix urgent authentication bug in login flow. Needs backend and security review.").labels
        = ["backend", "security"] ∧
    (analyzeTicket "Fix urgent authentication bug in login flow. Needs backend and security review.").title
        = "Fix urgent authentication bug in login flow" ∧
    (analyzePrompt "Fix urgent authentication bug in login flow. Needs backend and security review.").category = "BUG" ∧
    (analyzePrompt "Fix urgent authentication bug in login flow. Needs backend and security review.").priority = "urgent" ∧
    (analyzePrompt "Fix urgent authentication bug in login flow. Needs backend and security review.").labels
        = ["backend", "security"] ∧
    (analyzePrompt "Fix urgent authentication bug in login flow. Needs backend and security review.").title
        = "Fix urgent authentication bug in login flow" := by
  decide

/-! ## C8: category Bug for texts containing "bug", "error" or "fix" -/

/-- C8 counterexample: "fix typo" contains "fix", yet the agent-side
classifier `analyzePrompt` assigns category "TASK" — its bug vocabulary is
"bug"/"error"/"issue", not "fix" — contradicting the claim for the cited
`PlaneAgent.analyzePrompt` source. -/
theorem claim_C8_counterexample :
    jsIncludes (jsLower "fix typo") "fix" = true ∧
    (analyzePrompt "fix typo").category = "TASK" := by
  decide

/-- C8 (amended): `analyzeTicket` assigns category "Bug" to every text
containing "bug", "error" or "fix" (case-insensitive); `analyzePrompt`
assigns "BUG" to every text containing "bug", "error" or "issue" — "fix"
alone does not trigger the bug category there. -/
theorem claim_C8 (text : String) :
    (bugWordsT (jsLower text) = true → (analyzeTicket text).category = "Bug") ∧
    (bugWordsA (jsLower text) = true → (analyzePrompt text).category = "BUG") := by
  constructor
  · intro h; simp [analyzeTicket, h]
  · intro h; simp [analyzePrompt, h]

/-- C8 witness: the amended rule at concrete inputs. -/
theorem claim_C8_witness :
    (analyzeTicket "fix typo").category = "Bug" ∧
    (analyzePrompt "crash issue").category = "BUG" :=
  ⟨(claim_C8 "fix typo").1 (by decide),
   (claim_C8 "crash issue").2 (by decide)⟩

/-! ## C3: failure of the secondary analysis-comment call -/

/-- Fetch environment for C3: issue creation succeeds with a truthy id,
every comment request answers 500, everything else 404. -/
def envC3 : String → ReqBody → FetchOutcome Issue := fun _url body =>
  match body with
  | ReqBody.issueBody _ _ _ _ _ =>
    FetchOutcome.resp 200 (some "application/json") "" { id := some "issue-1" }
  | ReqBody.commentBody _ =>
    FetchOutcome.resp 500 (some "text/plain") "oops" { id := none }
  | ReqBody.noBody => FetchOutcome.resp 404 none "" { id := none }

/-- C3 counterexample: the issue-creation request succeeds and the comment
request throws, yet `createAITicket` throws the comment error and the batch
records the prompt as FAILED — the comment failure does fail the primary
operation, contradicting the claim. -/
theorem claim_C3_counterexample :
    (agentRequest envC3 "https://plane.example" (issuesEndpoint "indigo" "proj-1")
        (issueDataOf "Fix the login page")).1
      = JsResult.ret (JsValue.json { id := some "issue-1" }) ∧
    (agentRequest envC3 "https://plane.example" (commentsEndpoint "indigo" "proj-1" "issue-1")
        (ReqBody.commentBody (aiCommentText (analyzePrompt "Fix the login page")))).1
      = JsResult.thrown "API error 500: oops" ∧
    createAITicket envC3 "https://plane.example" "indigo" "proj-1" "Fix the login page"
      = JsResult.thrown "API error 500: oops" ∧
    (createTicketsFromList envC3 "https://plane.example" "indigo" "proj-1"
        ["Fix the login page"]).1
      = [{ success := false, error := some "API error 500: oops",
           prompt := "Fix the login page" }] := by
  decide

/-- C3 (amended): when remote creation succeeds (truthy issue with truthy
id) but the analysis-comment call throws, `createAITicket` rethrows the
comment error — the overall call fails, and the batch loop records that
prompt as a failure entry despite the remote issue having been created. -/
theorem claim_C3 (env : String → ReqBody → FetchOutcome Issue)
    (apiUrl ws proj prompt : String) (issue : Issue) (m : String)
    (hCreate : (agentRequest env apiUrl (issuesEndpoint ws proj) (issueDataOf prompt)).1
        = JsResult.ret (JsValue.json issue))
    (hTruthy : jsTruthyId issue.id = true)
    (hComment : (agentRequest env apiUrl
        (commentsEndpoint ws proj (issue.id.getD ""))
        (ReqBody.commentBody (aiCommentText (analyzePrompt prompt)))).1
        = JsResult.thrown m) :
    createAITicket env apiUrl ws proj prompt = JsResult.thrown m ∧
    (createTicketsFromList env apiUrl ws proj [prompt]).1
      = [{ success := false, error := some m, prompt := prompt }] := by
  have hc : createAITicket env apiUrl ws proj prompt = JsResult.thrown m := by
    simp [createAITicket, hCreate, hTruthy, hComment]
  exact ⟨hc, by simp [createTicketsFromList, hc]⟩

/-- C3 witness: the amended statement at the concrete environment. -/
theorem claim_C3_witness :
    createAITicket envC3 "https://plane.example" "indigo" "proj-1" "Fix the login page"
      = JsResult.thrown "API error 500: oops" ∧
    (createTicketsFromList envC3 "https://plane.example" "indigo" "proj-1"
        ["Fix the login page"]).1
      = [{ success := false, error := some "API error 500: oops",
           prompt := "Fix the login page" }] :=
  claim_C3 envC3 "https://plane.example" "indigo" "proj-1" "Fix the login page"
    { id := some "issue-1" } "API error 500: oops"
    (by decide) (by decide) (by decide)

/-! ## C4: the rate-limit delay on the failure path -/

/-- Fetch environment for C4 and C6: creating an issue whose description is
"boom" answers 500 on every path; any other issue creation and any comment
succeeds. -/
def envBoom : String → ReqBody → FetchOutcome Issue := fun _url body =>
  match body with
  | ReqBody.issueBody _ d _ _ _ =>
    if d == "boom" then
      FetchOutcome.resp 500 (some "text/plain") "server down" { id := none }
    else
      FetchOutcome.resp 200 (some "application/json") "" { id := some "ok-1" }
  | ReqBody.commentBody _ =>
    FetchOutcome.resp 200 (some "application/json") "" { id := none }
  | ReqBody.noBody => FetchOutcome.resp 404 none "" { id := none }

/-- C4 counterexample: with two prompts where the first submission fails and
the second succeeds, the rate-limit wait did NOT run after the failed first
item (`false` at position 0 of the wait trace) even though another prompt
followed — the delay is skipped on the failure path, contradicting the
claim. -/
theorem claim_C4_counterexample :
    (createTicketsFromList envBoom "https://plane.example" "indigo" "proj-1"
        ["boom", "fine"]).2 = [false, true] ∧
    (createTicketsFromList envBoom "https://plane.example" "indigo" "proj-1"
        ["boom", "fine"]).1
      = [{ success := false, error := some "API error 500: server down",
           prompt := "boom" },
         { success := true, ticket := some (JsValue.json { id := some "ok-1" }),
           prompt := "fine" }] := by
  decide

/-- C4 (amended): the 1000 ms rate-limit wait runs exactly after the
successful submissions (including the final one); it is skipped whenever the
submission of that prompt threw, because the wait sits inside the try block
after the success push and the catch path has no wait. -/
theorem claim_C4 (env : String → ReqBody → FetchOutcome Issue)
    (apiUrl ws proj : String) (prompts : List String) :
    (createTicketsFromList env apiUrl ws proj prompts).2
      = ((createTicketsFromList env apiUrl ws proj prompts).1).map
          (fun e => e.success) := by
  induction prompts with
  | nil => simp [createTicketsFromList]
  | cons p rest ih =>
    cases h : createAITicket env apiUrl ws proj p with
    | thrown m => simp [createTicketsFromList, h, ih]
    | ret v => simp [createTicketsFromList, h, ih]

/-! ## C6: one entry per prompt, in order, failures isolated -/

/-- C6: the bulk loop yields exactly one entry per prompt, in input order,
each carrying its original prompt: a success entry with the created ticket
when `createAITicket` returned, a failure entry with the error message when
it threw — so one failing prompt never prevents later prompts from being
attempted. Concretely, for three prompts where the second submission throws,
the result has length three with entries one and three successful and entry
two failed, in original order. -/
theorem claim_C6 :
    (∀ (env : String → ReqBody → FetchOutcome Issue) (apiUrl ws proj : String)
        (prompts : List String),
      (createTicketsFromList env apiUrl ws proj prompts).1
        = prompts.map (fun p =>
            match createAITicket env apiUrl ws proj p with
            | JsResult.ret t => { success := true, ticket := some t, prompt := p }
            | JsResult.thrown m => { success := false, error := some m, prompt := p })) ∧
    (createTicketsFromList envBoom "https://plane.example" "indigo" "proj-1"
        ["p1", "boom", "p3"]).1
      = [{ success := true, ticket := some (JsValue.json { id := some "ok-1" }),
           prompt := "p1" },
         { success := false, error := some "API error 500: server down",
           prompt := "boom" },
         { success := true, ticket := some (JsValue.json { id := some "ok-1" }),
           prompt := "p3" }] := by
  constructor
  · intro env apiUrl ws proj prompts
    induction prompts with
    | nil => simp [createTicketsFromList]
    | cons p rest ih =>
      cases h : createAITicket env apiUrl ws proj p with
      | thrown m => simp [createTicketsFromList, h, ih]
      | ret v => simp [createTicketsFromList, h, ih]
  · decide

/-! ## C9: webhook dispatcher responses -/

/-- C9: for every inbound event, the dispatcher answers 200 with
`{status:"success", processed: event_type}` whenever the selected handler
does not throw — in particular for every event whose tag has no case in the
switch, which only logs and triggers no handler — and answers 500 with
`{status:"error", message}` when the handler throws; `planeWebhook` is a
total function, so no handler error escapes the response path. -/
theorem claim_C9 (ev : WebhookEvent) :
    (selectHandler ev = Except.ok () → planeWebhook ev
        = { status := 200, body := WebhookBody.success ev.event_type }) ∧
    (∀ m, selectHandler ev = Except.error m → planeWebhook ev
        = { status := 500, body := WebhookBody.error m }) ∧
    ((ev.event_type == "issue.created") = false →
     (ev.event_type == "issue.updated") = false →
     (ev.event_type == "issue_comment.created") = false →
     (ev.event_type == "project.created") = false →
      planeWebhook ev
        = { status := 200, body := WebhookBody.success ev.event_type }) := by
  refine ⟨?_, ?_, ?_⟩
  · intro h; simp [planeWebhook, h]
  · intro m h; simp [planeWebhook, h]
  · intro h1 h2 h3 h4
    simp [planeWebhook, selectHandler, h1, h2, h3, h4]

/-- A webhook event with a tag outside the recognized set. -/
def evUnknown : WebhookEvent :=
  { event_type := "unknown.tag", data := some {} }

/-- A recognized event with a well-formed payload. -/
def evCreated : WebhookEvent :=
  { event_type := "issue.created"
    data := some { name := some "X", description := some "bug in login" } }

/-- A recognized event whose body has no `data` field, making the handler
throw. -/
def evNoData : WebhookEvent :=
  { event_type := "issue.created", data := none }

/-- C9 witness: an unrecognized tag gets 200 with its own tag echoed, a
known tag whose handler succeeds gets 200, and a known tag whose handler
throws (missing `data`) gets 500 with the error message. -/
theorem claim_C9_witness :
    planeWebhook evUnknown
      = { status := 200, body := WebhookBody.success "unknown.tag" } ∧
    planeWebhook evCreated
      = { status := 200, body := WebhookBody.success "issue.created" } ∧
    planeWebhook evNoData
      = { status := 500,
          body := WebhookBody.error "Cannot read properties of undefined" } :=
  ⟨(claim_C9 evUnknown).2.2 (by decide) (by decide) (by decide) (by decide),
   (claim_C9 evCreated).1 rfl,
   (claim_C9 evNoData).2.1 "Cannot read properties of undefined" rfl⟩

/-! ## C10: executeTicket never propagates an error -/

/-- C10: `executeTicket` is a total function on tickets (it never throws to
its caller); whenever the underlying remote call fails — for action
"deploy"/"redeploy" the redeploy mutation, for "status" the deployments
query — or the action is unknown, it returns the input ticket with `status`
set to "failed" and `error` carrying the message, all other fields
unchanged. -/
theorem claim_C10 (env : RailwayEnv) (t : RwTicket) :
    ((t.action == "deploy" || t.action == "redeploy") = true →
      ∀ m, env.serviceRedeploy t.serviceId = Except.error m →
        executeTicket env t
          = { toRwTicket := { t with status := "failed" }, error := some m }) ∧
    ((t.action == "status") = true →
      ∀ m, env.serviceDeployments t.serviceId = Except.error m →
        executeTicket env t
          = { toRwTicket := { t with status := "failed" }, error := some m }) ∧
    ((t.action == "deploy" || t.action == "redeploy") = false →
      (t.action == "status") = false →
        executeTicket env t
          = { toRwTicket := { t with status := "failed" },
              error := some ("Unknown action: " ++ t.action) }) := by
  refine ⟨?_, ?_, ?_⟩
  · intro hA m hE; simp [executeTicket, hA, hE]
  · intro hA m hE
    cases hD : (t.action == "deploy" || t.action == "redeploy") with
    | true =>
      have h1 : t.action = "deploy" ∨ t.action = "redeploy" := by
        simpa using hD
      have h2 : t.action = "status" := by simpa using hA
      cases h1 <;> simp_all
    | false => simp [executeTicket, hD, hA, hE]
  · intro hD hA; simp [executeTicket, hD, hA]

/-- Environment for the C10 witness: both remote calls fail. -/
def envRwFail : RailwayEnv :=
  { serviceRedeploy := fun _ => Except.error "network down"
    serviceDeployments := fun _ => Except.error "network down" }

/-- A concrete pending ticket with the given action. -/
def rwTicketWith (action : String) : RwTicket :=
  { id := "ticket-1", project := "indigo-services", service := "webhook-handler"
    action := action, status := "pending", serviceId := "svc-1"
    projectId := "prj-1" }

/-- C10 witness: the failure shape at a failing environment for a deploy
action, a status action, and an unknown action. -/
theorem claim_C10_witness :
    executeTicket envRwFail (rwTicketWith "deploy")
      = { toRwTicket := { rwTicketWith "deploy" with status := "failed" },
          error := some "network down" } ∧
    executeTicket envRwFail (rwTicketWith "status")
      = { toRwTicket := { rwTicketWith "status" with status := "failed" },
          error := some "network down" } ∧
    executeTicket envRwFail (rwTicketWith "dance")
      = { toRwTicket := { rwTicketWith "dance" with status := "failed" },
          error := some "Unknown action: dance" } :=
  ⟨(claim_C10 envRwFail (rwTicketWith "deploy")).1 (by decide) "network down" rfl,
   (claim_C10 envRwFail (rwTicketWith "status")).2.1 (by decide) "network down" rfl,
   (claim_C10 envRwFail (rwTicketWith "dance")).2.2 (by decide) (by decide)⟩

end IndigoServices
